import Mathlib

/-!
Verification of the PrivetManagerApp contract-lifecycle core against its
natural-language specification.

The embedding below is a shallow translation of the Python source in
`server/app/manager_api/router.py` and `server/app/manager_api/crud.py`
(and, where cited, `server/app/master_api/crud.py`).  Conventions:

* Python floats / SQL numerics are modelled as `ℚ` (the monetary and rate
  arithmetic in the source is plain multiplication/comparison, so exact
  rationals are a faithful abstraction).
* Timestamps are modelled as `ℚ` (seconds); calendar days as `Int` day
  indices.
* JSON snapshot dictionaries are modelled as structures whose fields are
  `Option`-typed exactly where the source reads them through
  `dict.get(...)` with a fallback; `None`/missing is `none`.
* Fallible endpoints return `Except`; raising `HTTPException` before any
  write is modelled by returning `.error` (no state is produced).
* External collaborators (PDF renderer, object store, randomness, clock,
  UUID minting) are passed in as explicit oracle parameters.
-/

/-! ## Tariff calculator (`manager_api/crud.py::calculate_tariff`,
`master_api/crud.py::calculate_tariff`) -/

/-- Catalog tariff entity (`ManagerTariff` / `MasterTariff`):
`name`, `base_fee`, `extra_per_device` columns (id stringified). -/
structure Tariff where
  id : String
  name : String
  base_fee : ℚ
  extra_per_device : ℚ
deriving DecidableEq, Repr

/-- Source: `manager_api/crud.py::calculate_tariff` (lines 373-381):
`extra_per_device = float(tariff.extra_per_device) if tariff else 1000.0`;
`device_count = max(0, request.device_count)`;
`total_extra = device_count * extra_per_device`. -/
def calculate_tariff (tariff : Option Tariff) (device_count : Int) : Int × ℚ × ℚ :=
  let extra_per_device : ℚ := match tariff with
    | some t => t.extra_per_device
    | none => 1000
  let dc := max 0 device_count
  (dc, extra_per_device, (dc : ℚ) * extra_per_device)

/-- Source: `master_api/crud.py::calculate_tariff` (lines 247-255): textually the
same computation as the manager contour's. -/
def master_calculate_tariff (tariff : Option Tariff) (device_count : Int) : Int × ℚ × ℚ :=
  let extra_per_device : ℚ := match tariff with
    | some t => t.extra_per_device
    | none => 1000
  let dc := max 0 device_count
  (dc, extra_per_device, (dc : ℚ) * extra_per_device)

/-! ## Invoice idempotency gate
(`manager_api/crud.py::ensure_invoice_for_client`, lines 530-573) -/

inductive InvoiceStatus where
  | pending
  | paid
  | canceled
deriving DecidableEq, Repr

/-- Source: `ManagerInvoice` row restricted to one client (the source filters every
lookup by `client_id == client.user_id`, so we model the per-client invoice
list; `due_date` is a day index). -/
structure Invoice where
  id : String
  amount : ℚ
  description : String
  contract_number : String
  due_date : Int
  status : InvoiceStatus
deriving DecidableEq, Repr

/-- Source: `crud.py::ensure_invoice_for_client`.  `today` is `date.today()` and
`new_id` the UUID the ORM would mint for a fresh row.  Mirrors the source:
`if (amount or 0) <= 0: return None` (on `ℚ`, `amount or 0` is the
identity); a `select ... where status == PENDING and contract_number == cn`
lookup returning the existing row unchanged; otherwise a new row with
`due_date = date.today() + timedelta(days=due_in_days or 3)` (Python `or`
sends a zero `due_in_days` to 3) and `status = PENDING`.  The `where`
clause of the pending lookup is split out as `isPendingFor`. -/
def isPendingFor (contract_number : String) (inv : Invoice) : Bool :=
  decide (inv.contract_number = contract_number ∧ inv.status = InvoiceStatus.pending)

def ensure_invoice_for_client (today : Int) (new_id : String) (invoices : List Invoice)
    (contract_number : String) (amount : ℚ) (due_in_days : Int)
    (description : Option String) : Option Invoice × List Invoice :=
  if amount ≤ 0 then
    (none, invoices)
  else
    match invoices.find? (isPendingFor contract_number) with
    | some existing => (some existing, invoices)
    | none =>
      let inv : Invoice :=
        { id := new_id
          amount := amount
          description := description.getD ("Оплата по договору " ++ contract_number)
          contract_number := contract_number
          due_date := today + (if due_in_days = 0 then 3 else due_in_days)
          status := InvoiceStatus.pending }
      (some inv, invoices ++ [inv])

/-- Number of pending invoices carrying a given contract number. -/
def pendingCount (invoices : List Invoice) (contract_number : String) : Nat :=
  (invoices.filter (isPendingFor contract_number)).length

/-- The spec's §4.5 invariant: at most one pending invoice per
(client, contract_number); stated per client (see `Invoice`). -/
def atMostOnePending (invoices : List Invoice) : Prop :=
  ∀ cn : String, pendingCount invoices cn ≤ 1

/-! ## Snapshots and canonicalization
(`manager_api/router.py` lines 650-758) -/

/-- Passport snapshot as written by `generate_contract` (router lines
822-837): every key present, string-valued (missing source data already
collapsed to `""` at build time). -/
structure PassportSnap where
  last_name : String
  first_name : String
  middle_name : String
  series : String
  number : String
  issued_by : String
  issue_code : String
  issue_date : String
  registration_address : String
  photo_url : String
  phone : String
  email : String
  name : String
  address : String
deriving DecidableEq, Repr

/-- Device snapshot entry (router lines 839-850).  Fields are `Option`
where the canonicalizer re-reads them through `raw.get(...)`; `specs` is
modelled as a string-valued map (the free-form spec dictionaries the
canonicalizer only ever sorts by key). -/
structure DeviceSnap where
  id : Option String
  device_type : Option String
  title : Option String
  description : Option String
  specs : Option (List (String × String))
  extra_fee : Option ℚ
  photos : List String
deriving DecidableEq, Repr

/-- Tariff snapshot (router lines 852-877), including the three derived
bookkeeping flags injected before persisting. -/
structure TariffSnap where
  tariff_id : Option String
  device_count : Option Int
  total_extra_fee : Option ℚ
  extra_per_device : Option ℚ
  base_fee : Option ℚ
  name : Option String
  client_full_name : Option String
  device_added : Option Bool
  device_added_count : Option Int
  was_signed_before_regen : Option Bool
deriving DecidableEq, Repr

/-- Canonical passport (`_canonical_passport`, router lines 683-700): the
thirteen recognized keys, each `snapshot.get(k) or ""`; note `photo_url`
is not among them. -/
structure CanonPassport where
  last_name : String
  first_name : String
  middle_name : String
  series : String
  number : String
  issued_by : String
  issue_code : String
  issue_date : String
  registration_address : String
  phone : String
  email : String
  name : String
  address : String
deriving DecidableEq, Repr

def _canonical_passport (snapshot : Option PassportSnap) : Option CanonPassport :=
  match snapshot with
  | none => none
  | some s =>
    some { last_name := s.last_name
           first_name := s.first_name
           middle_name := s.middle_name
           series := s.series
           number := s.number
           issued_by := s.issued_by
           issue_code := s.issue_code
           issue_date := s.issue_date
           registration_address := s.registration_address
           phone := s.phone
           email := s.email
           name := s.name
           address := s.address }

/-- Canonical device (`_canonical_devices` loop body, router lines
703-720): `photos` is read but not kept; `specs` passes through
`_normalize_value`, which for a string-valued map is a key-sort. -/
structure CanonDevice where
  id : String
  device_type : String
  title : String
  description : String
  specs : List (String × String)
  extra_fee : ℚ
deriving DecidableEq, Repr

/-- Source: `_normalize_value` on a (string-keyed, string-valued) mapping: keys
stringified and sorted, values untouched. -/
def normalizeSpecs (specs : List (String × String)) : List (String × String) :=
  specs.mergeSort (fun a b => decide (a.1 ≤ b.1))

/-- Source: `_canonical_devices` (router lines 703-720): empty/missing list to
`[]`, per-device projection with falsy fallbacks, then a stable sort by
the stringified id (`canon.sort(key=lambda item: item["id"])`). -/
def _canonical_devices (devices : Option (List DeviceSnap)) : List CanonDevice :=
  match devices with
  | none => []
  | some l =>
    (l.map (fun raw =>
      { id := raw.id.getD ""
        device_type := raw.device_type.getD ""
        title := raw.title.getD ""
        description := raw.description.getD ""
        specs := normalizeSpecs (raw.specs.getD [])
        extra_fee := raw.extra_fee.getD 0 : CanonDevice })).mergeSort
      (fun a b => decide (a.id ≤ b.id))

/-- Canonical tariff (`_canonical_tariff`, router lines 723-734) after the
`_normalize_value` pass `_contract_signature` applies to it.  The source
first computes `str(tariff_id) if tariff_id else None` and then
`_normalize_value` collapses that `None` to `""`; both falsy cases land on
`""`, i.e. `tariff_id.getD ""`.  Every other field is total after the
`or`-fallbacks.  Crucially, the three bookkeeping flags are NOT among the
keys this projection keeps. -/
structure CanonTariff where
  tariff_id : String
  device_count : Int
  total_extra_fee : ℚ
  extra_per_device : ℚ
  base_fee : ℚ
  name : String
  client_full_name : String
deriving DecidableEq, Repr

def _canonical_tariff (snapshot : Option TariffSnap) : Option CanonTariff :=
  match snapshot with
  | none => none
  | some s =>
    some { tariff_id := s.tariff_id.getD ""
           device_count := s.device_count.getD 0
           total_extra_fee := s.total_extra_fee.getD 0
           extra_per_device := s.extra_per_device.getD 0
           base_fee := s.base_fee.getD 0
           name := s.name.getD ""
           client_full_name := s.client_full_name.getD "" }

/-- The canonical payload `_contract_signature` serializes (router lines
737-745).  `json.dumps(..., sort_keys=True)` over the fixed-key canonical
dictionaries is injective and deterministic, so equality of the emitted
strings coincides with equality of this payload value; the comparison in
`generate_contract` is modelled at this level. -/
structure SigPayload where
  passport : Option CanonPassport
  devices : List CanonDevice
  tariff : Option CanonTariff
deriving DecidableEq, Repr

def _contract_signature (passport_snapshot : Option PassportSnap)
    (device_snapshot : Option (List DeviceSnap))
    (tariff_snapshot : Option TariffSnap) : SigPayload :=
  { passport := _canonical_passport passport_snapshot
    devices := _canonical_devices device_snapshot
    tariff := _canonical_tariff tariff_snapshot }

/-! ## Entity model (`manager_api/models.py`) -/

inductive ManagerClientStatus where
  | new
  | in_verification
  | awaiting_contract
  | awaiting_payment
  | processed
deriving DecidableEq, Repr

/-- End-user identity row (`users` table) as read by the router:
`phone` non-null, `email`/`name`/`address` nullable.  The `user`
relationship is non-null (`ManagerClient.user_id` FK is `nullable=False`). -/
structure EndUser where
  phone : String
  email : Option String
  name : Option String
  address : Option String
deriving DecidableEq, Repr

/-- Source: `ManagerPassport` row.  `issue_date` is kept as its `isoformat()`
string; nullable columns are `Option`. -/
structure Passport where
  last_name : String
  first_name : String
  middle_name : Option String
  series : String
  number : String
  issued_by : String
  issue_code : String
  issue_date : String
  registration_address : String
  photo_url : Option String
deriving DecidableEq, Repr

/-- Source: `ManagerDevice` row with its ordered photo file keys. -/
structure Device where
  id : String
  device_type : String
  title : String
  description : Option String
  specs : Option (List (String × String))
  extra_fee : ℚ
  photos : List String
deriving DecidableEq, Repr

/-- Source: `ManagerClientTariff` cache row (`calculated_at` carries no behaviour
visible to the claims and is omitted). -/
structure ClientTariff where
  tariff : Option Tariff
  tariff_id : Option String
  device_count : Int
  total_extra_fee : ℚ
deriving DecidableEq, Repr

/-- Source: `ManagerContract` row (timestamps as `ℚ` seconds). -/
structure Contract where
  tariff_snapshot : Option TariffSnap
  passport_snapshot : Option PassportSnap
  device_snapshot : Option (List DeviceSnap)
  otp_code : Option String
  otp_sent_at : Option ℚ
  signed_at : Option ℚ
  pep_agreed_at : Option ℚ
  payment_confirmed_at : Option ℚ
  contract_url : Option String
  contract_number : Option String
  signature_hash : Option String
  signature_hmac : Option String
  signed_ip : Option String
  signed_user_agent : Option String
deriving DecidableEq, Repr

/-- Source: `ManagerClient` with its loaded relationships, the unit of state every
contract endpoint reads and writes. -/
structure Client where
  user : EndUser
  status : ManagerClientStatus
  passport : Option Passport
  devices : Option (List Device)
  tariff : Option ClientTariff
  contract : Option Contract
  invoices : List Invoice
deriving DecidableEq, Repr

/-! ## Contract number minting (`generate_contract`, router lines 933-953) -/

/-- Python's character class `[A-Za-zА-Яа-яЁё]` from the two regexes in
`generate_contract`. -/
def isAlphaLatinCyr (c : Char) : Bool :=
  (decide ('A' ≤ c) && decide (c ≤ 'Z')) || (decide ('a' ≤ c) && decide (c ≤ 'z')) ||
  (decide ('А' ≤ c) && decide (c ≤ 'я')) || c = 'Ё' || c = 'ё'

/-- Source: `str.upper()` restricted to the character class above: ASCII letters
and the Cyrillic range `а-я` shift down by 32 code points, `ё` maps to
`Ё`; uppercase letters are fixed. -/
def pyUpper (c : Char) : Char :=
  if 'a' ≤ c ∧ c ≤ 'z' then Char.ofNat (c.toNat - 32)
  else if 'а' ≤ c ∧ c ≤ 'я' then Char.ofNat (c.toNat - 32)
  else if c = 'ё' then 'Ё'
  else c

def isDigitChar (c : Char) : Bool :=
  decide ('0' ≤ c) && decide (c ≤ '9')

/-- Python `str.strip()`: drop leading and trailing whitespace.  (Defined
over the character list so that concrete instances reduce in the kernel.) -/
def pyStrip (s : String) : String :=
  String.mk ((((s.toList.dropWhile Char.isWhitespace).reverse.dropWhile
    Char.isWhitespace).reverse))

/-- Source: `f"{n:02d}"` for a non-negative integer. -/
def pad2 (n : Nat) : String :=
  if n < 10 then "0" ++ toString n else toString n

/-- Source: `datetime.utcnow().strftime("%y%m%d")` from a (year, month, day)
triple. -/
def yymmddOf (y m d : Nat) : String :=
  pad2 (y % 100) ++ pad2 m ++ pad2 d

/-- Source: `re.match(r"^[A-Za-zА-Яа-яЁё]{2}-(\d{6})-(\d{2})$", s)`, returning the
two groups (`int(m.group(2))` parses the zero-padded two-digit number). -/
def matchContractNumber (s : String) : Option (String × Nat) :=
  match s.toList with
  | [a, b, h1, d1, d2, d3, d4, d5, d6, h2, n1, n2] =>
    if isAlphaLatinCyr a && isAlphaLatinCyr b && h1 = '-' &&
        isDigitChar d1 && isDigitChar d2 && isDigitChar d3 &&
        isDigitChar d4 && isDigitChar d5 && isDigitChar d6 && h2 = '-' &&
        isDigitChar n1 && isDigitChar n2 then
      some (String.mk [d1, d2, d3, d4, d5, d6], (n1.toNat - 48) * 10 + (n2.toNat - 48))
    else
      none
  | _ => none

/-- Contract number minting (router lines 933-953).
`last_name feed = passport.last_name if truthy else (user.name or "")`,
stripped; the prefix is `re.sub(r"[^A-Za-zА-Яа-яЁё]", "", feed).upper()[:2]
or "XX"`; the sequence restarts at 1 unless the client's existing number
matches the day's date, in which case `seq = max(1, prev) + 1`. -/
def mintContractNumber (passport_last_name : String) (user_name : String)
    (existing_number : Option String) (y m d : Nat) : String :=
  let feed := pyStrip (if passport_last_name = "" then user_name else passport_last_name)
  let two0 := String.mk (((feed.toList.filter isAlphaLatinCyr).map pyUpper).take 2)
  let two := if two0 = "" then "XX" else two0
  let yymmdd := yymmddOf y m d
  let seq : Nat :=
    match existing_number with
    | some prev =>
      match matchContractNumber prev with
      | some (datePart, prevSeq) =>
        if datePart = yymmdd then max 1 prevSeq + 1 else 1
      | none => 1
    | none => 1
  two ++ "-" ++ yymmdd ++ "-" ++ pad2 seq

/-! ## Contract generation (`router.py::generate_contract`, lines 761-990) -/

/-- Environment of a `generate` call: the path parameter `client_id`, the
object store's `get_public_url`, and the current UTC date split by
`strftime("%y%m%d")`. -/
structure GenEnv where
  client_id : String
  url_of : String → String
  y : Nat
  m : Nat
  d : Nat

inductive GenError where
  | missingPassport
  | devicesNotLoaded
  | missingTariff
deriving DecidableEq, Repr

/-- Source: `ContractGenerateResponse` plus an observation flag: `rendered` records
whether `build_contract_pdf`/`upload_bytes` were invoked on this call. -/
structure GenResult where
  otp_code : String
  contract_url : Option String
  contract_number : Option String
  rendered : Bool
deriving DecidableEq, Repr

/-- Python truthiness of an optional string (`None` and `""` are falsy). -/
def pyTruthyStrOpt : Option String → Bool
  | none => false
  | some s => decide (s ≠ "")

/-- Source: `router.py::_device_addition_stats` (lines 752-758): set difference of
stringified truthy device ids, current minus previous; non-list inputs
yield `(False, 0)`. -/
def _device_addition_stats (previous current : Option (List DeviceSnap)) : Bool × Int :=
  match previous, current with
  | some prev, some curr =>
    let prevIds := prev.filterMap (fun item =>
      match item.id with
      | some i => if i = "" then none else some i
      | none => none)
    let currIds := curr.filterMap (fun item =>
      match item.id with
      | some i => if i = "" then none else some i
      | none => none)
    let added := currIds.eraseDups.filter (fun i => !(prevIds.contains i))
    (!added.isEmpty, (added.length : Int))
  | _, _ => (false, 0)

/-- The `if client.contract and not ... signed_at and ... contract_number
and ... otp_sent_at` reuse guard (router line 789). -/
def otpPendingReuse : Option Contract → Bool
  | none => false
  | some k =>
    decide (k.signed_at = none) && pyTruthyStrOpt k.contract_number &&
      decide (k.otp_sent_at ≠ none)

/-- The `ContractGenerateResponse` built from an existing contract record
(reuse paths; `otp_code` is always the empty string). -/
def reuseResult : Option Contract → GenResult
  | some k =>
    { otp_code := "", contract_url := k.contract_url, contract_number := k.contract_number
      rendered := false }
  | none => { otp_code := "", contract_url := none, contract_number := none, rendered := false }

/-- Passport snapshot build (router lines 822-837); `or ""` fallbacks on
nullable columns, user contact data with `""` fallbacks. -/
def buildPassportSnap (p : Passport) (u : EndUser) : PassportSnap :=
  { last_name := p.last_name
    first_name := p.first_name
    middle_name := p.middle_name.getD ""
    series := p.series
    number := p.number
    issued_by := p.issued_by
    issue_code := p.issue_code
    issue_date := p.issue_date
    registration_address := p.registration_address
    photo_url := p.photo_url.getD ""
    phone := u.phone
    email := u.email.getD ""
    name := u.name.getD ""
    address := u.address.getD "" }

/-- Device snapshot build (router lines 839-850). -/
def buildDeviceSnap (devs : List Device) : List DeviceSnap :=
  devs.map (fun dev =>
    { id := some dev.id
      device_type := some dev.device_type
      title := some dev.title
      description := dev.description
      specs := some (dev.specs.getD [])
      extra_fee := some dev.extra_fee
      photos := dev.photos })

/-- Tariff snapshot build (router lines 852-877): the base dictionary uses
the computed `extra_per_device`/`total_extra_fee`; when a catalog tariff is
attached, `name`/`base_fee`/`extra_per_device` are overwritten from it
(`float(x or 0)` is the identity on `ℚ`); then `client_full_name` and the
three derived flags are added. -/
def buildTariffSnap (cache : ClientTariff) (device_count : Int)
    (total_extra_fee extra_per_device : ℚ) (client_full_name : String)
    (device_added : Bool) (device_added_count : Int)
    (was_signed_before_regen : Bool) : TariffSnap :=
  match cache.tariff with
  | some t =>
    { tariff_id := cache.tariff_id
      device_count := some device_count
      total_extra_fee := some total_extra_fee
      extra_per_device := some t.extra_per_device
      base_fee := some t.base_fee
      name := some t.name
      client_full_name := some client_full_name
      device_added := some device_added
      device_added_count := some device_added_count
      was_signed_before_regen := some was_signed_before_regen }
  | none =>
    { tariff_id := cache.tariff_id
      device_count := some device_count
      total_extra_fee := some total_extra_fee
      extra_per_device := some extra_per_device
      base_fee := some 0
      name := none
      client_full_name := some client_full_name
      device_added := some device_added
      device_added_count := some device_added_count
      was_signed_before_regen := some was_signed_before_regen }

/-- Source: `crud.py::upsert_contract` as invoked at router lines 967-981: the
listed keys are written (OTP, signing and payment stamps cleared), every
other column of an existing row is preserved. -/
def upsertContractGen (existing : Option Contract) (ts : TariffSnap) (ps : PassportSnap)
    (ds : List DeviceSnap) (number url : String) : Contract :=
  let base : Contract := existing.getD
    { tariff_snapshot := none, passport_snapshot := none, device_snapshot := none
      otp_code := none, otp_sent_at := none, signed_at := none, pep_agreed_at := none
      payment_confirmed_at := none, contract_url := none, contract_number := none
      signature_hash := none, signature_hmac := none, signed_ip := none
      signed_user_agent := none }
  { base with
    tariff_snapshot := some ts
    passport_snapshot := some ps
    device_snapshot := some ds
    contract_number := some number
    contract_url := some url
    signed_at := none
    payment_confirmed_at := none
    otp_code := none
    otp_sent_at := none }

/-- Mint-render-save tail of `generate_contract` (router lines 933-990). -/
def renderAndSave (env : GenEnv) (c1 : Client) (p : Passport) (ps : PassportSnap)
    (ds : List DeviceSnap) (ts : TariffSnap) (existing : Option Contract) :
    GenResult × Client :=
  let number := mintContractNumber p.last_name (c1.user.name.getD "")
    (existing.bind Contract.contract_number) env.y env.m env.d
  let pdf_key := "contracts/" ++ env.client_id ++ "/" ++ number ++ ".pdf"
  let url := env.url_of pdf_key
  let contract := upsertContractGen existing ts ps ds number url
  let c2 := { c1 with contract := some contract
                      status := ManagerClientStatus.awaiting_contract }
  ({ otp_code := "", contract_url := some url, contract_number := some number
     rendered := true }, c2)

/-- Source: `extra_per_device = float(client.tariff.tariff.extra_per_device if
client.tariff and client.tariff.tariff else 1000.0)` (router line 803). -/
def cacheRate (ct : ClientTariff) : ℚ :=
  match ct.tariff with
  | some t => t.extra_per_device
  | none => 1000

/-- The conditional `crud.update_tariff` call (router lines 807-820):
refresh `tariff_id`/`device_count`/`total_extra_fee` when either cached
value drifted, else leave the cache row untouched. -/
def syncedTariff (ct0 : ClientTariff) (device_count : Int) (total_extra_fee : ℚ) :
    ClientTariff :=
  if ct0.device_count ≠ device_count ∨ ct0.total_extra_fee ≠ total_extra_fee then
    { ct0 with tariff_id := ct0.tariff.map Tariff.id
               device_count := device_count
               total_extra_fee := total_extra_fee }
  else ct0

/-- The derived bookkeeping flags (router lines 867-877):
`(device_added, device_added_count, was_signed_before_regen)` — the device
diff runs against the stored snapshot only when the existing contract was
already signed. -/
def candidateFlags (c : Client) (ds : List DeviceSnap) : Bool × Int × Bool :=
  let previous_device_snapshot : Option (List DeviceSnap) :=
    match c.contract with
    | some k => if k.signed_at ≠ none then k.device_snapshot else none
    | none => none
  let stats := _device_addition_stats previous_device_snapshot (some ds)
  let was_signed_before_regen : Bool :=
    match c.contract with
    | some k => decide (k.signed_at ≠ none)
    | none => false
  (stats.1, stats.2, was_signed_before_regen)

/-- Body of `generate_contract` after the prerequisite checks (router
lines 802-990): sync the cached `ClientTariff` if drifted, build the three
candidate snapshots, inject the derived flags, and either short-circuit on
a matching fingerprint or mint/render/persist. -/
def generateMain (env : GenEnv) (c : Client) (p : Passport) (devs : List Device)
    (ct0 : ClientTariff) : GenResult × Client :=
  let device_count : Int := devs.length
  let extra_per_device : ℚ := cacheRate ct0
  let total_extra_fee : ℚ := (device_count : ℚ) * extra_per_device
  let ct1 := syncedTariff ct0 device_count total_extra_fee
  let c1 := { c with tariff := some ct1 }
  let ps := buildPassportSnap p c.user
  let ds := buildDeviceSnap devs
  let flags := candidateFlags c ds
  let ts := buildTariffSnap ct1 device_count total_extra_fee extra_per_device
    (c.user.name.getD "") flags.1 flags.2.1 flags.2.2
  match c.contract with
  | some k =>
    if _contract_signature (some ps) (some ds) (some ts) =
        _contract_signature k.passport_snapshot k.device_snapshot k.tariff_snapshot then
      (reuseResult (some k), c1)
    else
      renderAndSave env c1 p ps ds ts (some k)
  | none => renderAndSave env c1 p ps ds ts none

/-- Source: `router.py::generate_contract` (lines 761-990): prerequisite checks in
source order, then the OTP-pending reuse guard (which returns before the
tariff-cache sync), then `generateMain`. -/
def generate_contract (env : GenEnv) (c : Client) :
    Except GenError (GenResult × Client) :=
  match c.passport with
  | none => .error .missingPassport
  | some p =>
    match c.devices with
    | none => .error .devicesNotLoaded
    | some devs =>
      match c.tariff with
      | none => .error .missingTariff
      | some ct0 =>
        if otpPendingReuse c.contract then
          .ok (reuseResult c.contract, c)
        else
          .ok (generateMain env c p devs ct0)

/-! ## OTP request (`router.py::request_contract_otp`, lines 993-1040) -/

inductive OtpError where
  | contractNotGenerated
deriving DecidableEq, Repr

/-- Source: `f"{secrets.randbelow(9000) + 1000:04d}"`: `draw` is the oracle value
returned by `secrets.randbelow(9000)` (uniform on `[0, 9000)`); the
`%04d` padding is vacuous for the resulting range `[1000, 9999]`. -/
def mintOtp (draw : Nat) : String :=
  toString (1000 + draw)

/-- The OTP selection of `request_contract_otp` (router lines 1005-1013):
`if client.contract.otp_code and client.contract.otp_sent_at` (Python
truthiness: the code must be non-null and non-empty, the timestamp
non-null), reuse while `elapsed < 60`, else mint. -/
def otpToSend (k : Contract) (now : ℚ) (draw : Nat) : String :=
  match k.otp_code, k.otp_sent_at with
  | some code, some sent =>
    if code = "" then mintOtp draw
    else if now - sent < 60 then code else mintOtp draw
  | _, _ => mintOtp draw

/-- The contract/client state `request_contract_otp` persists through
`upsert_contract`: `otp_code := code`, `otp_sent_at := now`. -/
def stampOtp (c : Client) (k : Contract) (code : String) (now : ℚ) : Client :=
  { c with contract := some { k with otp_code := some code, otp_sent_at := some now } }

/-- Source: `router.py::request_contract_otp` (lines 993-1040): 404 without a
contract; reuse the stored code while it is both truthy and younger than
60 seconds, else mint a fresh one; in every case persist
`otp_code`/`otp_sent_at := now`.  (The support-relay message carries the
same code; we return it.) -/
def request_contract_otp (now : ℚ) (draw : Nat) (c : Client) :
    Except OtpError (String × Client) :=
  match c.contract with
  | none => .error .contractNotGenerated
  | some k =>
    let otp_code := otpToSend k now draw
    .ok (otp_code, stampOtp c k otp_code now)

/-! ## Confirmation and billing (`router.py::confirm_contract`,
lines 1043-1166) -/

/-- Environment of a `confirm` call: clock, calendar day (for the invoice
due date), request metadata, the document-hash/HMAC oracles (sha256 of the
stored-or-re-rendered PDF at a key, and the keyed MAC over that hash), and
the UUID a fresh invoice row would get. -/
structure ConfirmCtx where
  client_id : String
  now : ℚ
  today : Int
  ip : Option String
  user_agent : Option String
  doc_hash : String → String
  doc_hmac : String → String
  invoice_id : String

inductive ConfirmError where
  | contractNotGenerated
  | invalidOtp
deriving DecidableEq, Repr

/-- The billing decision of `confirm_contract` (router lines 1117-1140),
computed from `was_signed_before` and the stored tariff snapshot (an
absent snapshot reads as the empty dict). -/
structure BillingCalc where
  was_signed : Bool
  device_added : Bool
  device_added_count : Int
  extra_per_device : ℚ
  amount_to_bill : ℚ
deriving DecidableEq, Repr

def billing_calc (was_signed_before : Bool) (ts : Option TariffSnap) : BillingCalc :=
  let was_signed := was_signed_before ||
    (match ts with
     | some t => t.was_signed_before_regen.getD false
     | none => false)
  let device_added : Bool :=
    match ts with
    | some t => t.device_added.getD false
    | none => false
  let dac0 : Int :=
    match ts with
    | some t => t.device_added_count.getD 0
    | none => 0
  let device_added_count := if device_added ∧ dac0 ≤ 0 then 1 else dac0
  let epd0 : ℚ :=
    match ts with
    | some t => t.extra_per_device.getD 0
    | none => 0
  let extra_per_device := if epd0 ≤ 0 then 1000 else epd0
  let amount_to_bill : ℚ :=
    if was_signed then
      (if device_added then (device_added_count : ℚ) * extra_per_device else 0)
    else
      match ts with
      | some t => t.total_extra_fee.getD 0
      | none => 0
  { was_signed := was_signed
    device_added := device_added
    device_added_count := device_added_count
    extra_per_device := extra_per_device
    amount_to_bill := amount_to_bill }

/-- Source: `router.py::confirm_contract` (lines 1043-1166): 404 without a
contract; trimmed-OTP comparison raising 400 *before any write*; on match
stamp `signed_at`/`pep_agreed_at`, clear the OTP, record the audit fields
(hash/HMAC of the stored or self-healed document, modelled by the `ctx`
oracles keyed by the PDF key; both stay `None` when the contract number is
falsy); then the billing decision, the `device_added and amount > 0`
invoice gate, and the status transition. -/
def confirm_contract (ctx : ConfirmCtx) (provided_otp : String) (c : Client) :
    Except ConfirmError Client :=
  match c.contract with
  | none => .error .contractNotGenerated
  | some k =>
    let expected_otp := pyStrip (k.otp_code.getD "")
    let provided := pyStrip provided_otp
    if expected_otp ≠ provided then
      .error .invalidOtp
    else
      let was_signed_before : Bool := decide (k.signed_at ≠ none)
      let contract_number := k.contract_number.getD ""
      let pdf_key := if contract_number = "" then ""
        else "contracts/" ++ ctx.client_id ++ "/" ++ contract_number ++ ".pdf"
      let sig : Option String × Option String :=
        if pdf_key = "" then (none, none)
        else (some (ctx.doc_hash pdf_key), some (ctx.doc_hmac pdf_key))
      let k1 := { k with signed_at := some ctx.now
                         pep_agreed_at := some ctx.now
                         otp_code := none
                         signature_hash := sig.1
                         signature_hmac := sig.2
                         signed_ip := ctx.ip
                         signed_user_agent := ctx.user_agent }
      let c1 := { c with contract := some k1 }
      let bc := billing_calc was_signed_before k1.tariff_snapshot
      if bc.device_added ∧ bc.amount_to_bill > 0 then
        let gate := ensure_invoice_for_client ctx.today ctx.invoice_id c1.invoices
          (k1.contract_number.getD "") bc.amount_to_bill 3 none
        .ok { c1 with invoices := gate.2
                      status := ManagerClientStatus.awaiting_payment }
      else
        .ok { c1 with status := ManagerClientStatus.processed }

/-! ## Shared helper lemmas -/

lemma pendingCount_append (l₁ l₂ : List Invoice) (cn : String) :
    pendingCount (l₁ ++ l₂) cn = pendingCount l₁ cn + pendingCount l₂ cn := by
  simp [pendingCount, List.filter_append]

lemma pendingCount_singleton_le (inv : Invoice) (cn : String) :
    pendingCount [inv] cn ≤ 1 :=
  le_trans (List.length_filter_le _ _) (by simp)

lemma pendingCount_singleton_ne (inv : Invoice) (cn : String)
    (h : inv.contract_number ≠ cn) : pendingCount [inv] cn = 0 := by
  simp only [pendingCount, List.length_eq_zero, List.filter_eq_nil_iff]
  intro a ha
  simp only [List.mem_singleton] at ha
  subst ha
  simp [isPendingFor]
  intro h'
  exact absurd h' h

lemma pendingCount_eq_zero_of_find?_none (l : List Invoice) (cn : String)
    (hf : l.find? (isPendingFor cn) = none) : pendingCount l cn = 0 := by
  simp only [pendingCount, List.length_eq_zero, List.filter_eq_nil_iff]
  intro a ha
  have := List.find?_eq_none.mp hf a ha
  simpa using this

/-! ## C10: tariff calculator -/

/-- C10: `calculate_tariff` is a pure total function returning
`(max(0, device_count), extra_per_device, max(0, device_count) *
extra_per_device)` with `extra_per_device` the tariff's rate when one is
given and the default 1000.0 otherwise; negative device counts clamp to 0;
the master contour's copy agrees. -/
theorem calculate_tariff_spec (t : Option Tariff) (n : Int) :
    (calculate_tariff t n).1 = max 0 n ∧
    (calculate_tariff t n).2.2 = ((max 0 n : Int) : ℚ) * (calculate_tariff t n).2.1 ∧
    (t = none → (calculate_tariff t n).2.1 = 1000) ∧
    (∀ tt : Tariff, t = some tt → (calculate_tariff t n).2.1 = tt.extra_per_device) ∧
    (n < 0 → (calculate_tariff t n).1 = 0) ∧
    master_calculate_tariff t n = calculate_tariff t n := by
  refine ⟨rfl, rfl, ?_, ?_, ?_, rfl⟩
  · rintro rfl; rfl
  · rintro tt rfl; rfl
  · intro hn
    simp only [calculate_tariff]
    omega

theorem calculate_tariff_spec_witness :
    (calculate_tariff none (-3)).1 = max 0 (-3) ∧
    (calculate_tariff none (-3)).2.1 = 1000 ∧
    (calculate_tariff none (-3)).1 = 0 :=
  ⟨(calculate_tariff_spec none (-3)).1,
   (calculate_tariff_spec none (-3)).2.2.1 rfl,
   (calculate_tariff_spec none (-3)).2.2.2.2.1 (by decide)⟩

/-! ## C4: invoice idempotency gate -/

/-- C4 (amended on the due-date off-case): `ensure_invoice_for_client`
creates nothing and returns `none` when `amount ≤ 0`; returns an already
existing pending invoice for the pair unchanged (same row, no duplicate);
otherwise creates exactly one pending invoice with
`due_date = today + due_in_days`, except that a zero `due_in_days` falls
back to the default 3 (`due_in_days or 3` in the source); and it preserves
the at-most-one-pending-per-contract-number invariant. -/
theorem ensure_invoice_spec (today : Int) (new_id : String) (l : List Invoice)
    (cn : String) (amount : ℚ) (dd : Int) (dsc : Option String) :
    (amount ≤ 0 → ensure_invoice_for_client today new_id l cn amount dd dsc = (none, l)) ∧
    (∀ inv, 0 < amount → l.find? (isPendingFor cn) = some inv →
      ensure_invoice_for_client today new_id l cn amount dd dsc = (some inv, l)) ∧
    (0 < amount → l.find? (isPendingFor cn) = none →
      ∃ inv, ensure_invoice_for_client today new_id l cn amount dd dsc = (some inv, l ++ [inv]) ∧
        inv.status = InvoiceStatus.pending ∧ inv.amount = amount ∧
        inv.contract_number = cn ∧ inv.id = new_id ∧
        inv.due_date = today + (if dd = 0 then 3 else dd)) ∧
    (atMostOnePending l →
      atMostOnePending (ensure_invoice_for_client today new_id l cn amount dd dsc).2) := by
  refine ⟨?_, ?_, ?_, ?_⟩
  · intro h
    simp [ensure_invoice_for_client, h]
  · intro inv ha hf
    simp [ensure_invoice_for_client, not_le.mpr ha, hf]
  · intro ha hf
    refine ⟨Invoice.mk new_id amount (dsc.getD ("Оплата по договору " ++ cn)) cn
      (today + (if dd = 0 then 3 else dd)) InvoiceStatus.pending, ?_, rfl, rfl, rfl, rfl, rfl⟩
    simp [ensure_invoice_for_client, not_le.mpr ha, hf]
  · intro hinv
    by_cases ha : amount ≤ 0
    · simpa [ensure_invoice_for_client, ha] using hinv
    rcases hf : l.find? (isPendingFor cn) with _ | inv
    · intro cn'
      simp only [ensure_invoice_for_client, ha, if_false, hf]
      rw [pendingCount_append]
      by_cases hcn : cn' = cn
      · subst hcn
        have h0 := pendingCount_eq_zero_of_find?_none l cn' hf
        have h1 := pendingCount_singleton_le
          (Invoice.mk new_id amount (dsc.getD ("Оплата по договору " ++ cn'))
            cn' (today + (if dd = 0 then 3 else dd)) InvoiceStatus.pending) cn'
        omega
      · have h2 := pendingCount_singleton_ne
          (Invoice.mk new_id amount (dsc.getD ("Оплата по договору " ++ cn))
            cn (today + (if dd = 0 then 3 else dd)) InvoiceStatus.pending) cn'
          (fun h => hcn h.symm)
        have := hinv cn'
        omega
    · simp only [ensure_invoice_for_client, if_neg ha, hf]
      exact hinv

/-- Reusable pending invoice row for concrete checks. -/
def wPend : Invoice :=
  { id := "i0", amount := 5, description := "", contract_number := "CN",
    due_date := 3, status := InvoiceStatus.pending }

theorem ensure_invoice_spec_witness :
    ensure_invoice_for_client 0 "i1" [wPend] "CN" 100 3 none = (some wPend, [wPend]) ∧
    atMostOnePending (ensure_invoice_for_client 0 "i1" [wPend] "CN" 100 3 none).2 :=
  ⟨(ensure_invoice_spec 0 "i1" [wPend] "CN" 100 3 none).2.1 wPend (by decide) (by rfl),
   (ensure_invoice_spec 0 "i1" [wPend] "CN" 100 3 none).2.2.2
     (fun cn => le_trans (List.length_filter_le _ _) (by simp))⟩

/-- C4 counterexample: with `due_in_days = 0` the created invoice is due
`today + 3`, not `today + 0` as the claim's `due_date = today +
due_in_days` states. -/
theorem ensure_invoice_due_zero_cx :
    ((ensure_invoice_for_client 100 "inv-1" [] "CN" 50 0 none).1.map Invoice.due_date) =
      some 103 ∧ (103 : Int) ≠ 100 + 0 :=
  ⟨rfl, by decide⟩

/-! ## C2: incremental billing on re-signature -/

/-- C2 (amended on the fallback condition): for a previously signed
contract (`was_signed_before` or the snapshot's `was_signed_before_regen`),
the billed amount is `max(1, device_added_count) * extra_per_device` when
`device_added` is set and `0` otherwise, where `extra_per_device` is the
snapshot value but falls back to 1000.0 when the stored value is zero,
*negative*, or absent (the source guard is `extra_per_device <= 0`). -/
theorem billing_previously_signed (was_signed_before : Bool) (ts : TariffSnap)
    (h : was_signed_before = true ∨ ts.was_signed_before_regen.getD false = true) :
    (billing_calc was_signed_before (some ts)).amount_to_bill =
      if ts.device_added.getD false then
        ((max 1 (ts.device_added_count.getD 0) : Int) : ℚ) *
          (if ts.extra_per_device.getD 0 ≤ 0 then 1000 else ts.extra_per_device.getD 0)
      else 0 := by
  have hw : (was_signed_before ||
      (match some ts with
       | some t => t.was_signed_before_regen.getD false
       | none => false)) = true := by
    rcases h with h | h <;> simp [h]
  simp only [billing_calc, hw, if_true]
  by_cases hda : ts.device_added.getD false
  · by_cases hc : ts.device_added_count.getD 0 ≤ 0
    · have hm : max 1 (ts.device_added_count.getD 0) = 1 := by omega
      simp [hda, hc, hm]
    · have hm : max 1 (ts.device_added_count.getD 0) = ts.device_added_count.getD 0 := by
        omega
      simp [hda, hc, hm]
  · simp [hda]

/-- Snapshot with a strictly negative stored rate: the source falls back
to the 1000.0 default even though the value is neither zero nor absent. -/
def negRateSnap : TariffSnap :=
  { tariff_id := none, device_count := some 3, total_extra_fee := some (-15),
    extra_per_device := some (-5), base_fee := some 0, name := none,
    client_full_name := some "", device_added := some true,
    device_added_count := some 2, was_signed_before_regen := some true }

/-- C2 counterexample: on a previously signed contract with
`device_added`, `device_added_count = 2` and a stored (non-zero, present)
`extra_per_device = -5`, the claim's formula `max(1,2) * (-5)` predicts
`-10`, but the code bills `2 * 1000 = 2000` because its fallback guard is
`<= 0`, not "zero or absent". -/
theorem billing_previously_signed_cx :
    (billing_calc false (some negRateSnap)).amount_to_bill = 2000 ∧
    (billing_calc false (some negRateSnap)).amount_to_bill ≠
      ((max 1 (2 : Int) : Int) : ℚ) * (-5) := by
  constructor
  · simp [billing_calc, negRateSnap]
    norm_num
  · simp [billing_calc, negRateSnap]
    norm_num

theorem billing_previously_signed_witness :
    (billing_calc false (some negRateSnap)).amount_to_bill =
      if negRateSnap.device_added.getD false then
        ((max 1 (negRateSnap.device_added_count.getD 0) : Int) : ℚ) *
          (if negRateSnap.extra_per_device.getD 0 ≤ 0 then 1000
           else negRateSnap.extra_per_device.getD 0)
      else 0 :=
  billing_previously_signed false negRateSnap (Or.inr (by decide))

/-! ## C1: first-time signature billing -/

/-- Tariff snapshot of a freshly generated, never-signed contract for two
devices at the default 1000.0 rate (exactly what `generate_contract`
stores for a first contract: no prior signed baseline, so all three
derived flags are cleared). -/
def firstSignSnap : TariffSnap :=
  { tariff_id := none, device_count := some 2, total_extra_fee := some 2000,
    extra_per_device := some 1000, base_fee := some 0, name := none,
    client_full_name := some "Иванов Иван", device_added := some false,
    device_added_count := some 0, was_signed_before_regen := some false }

def firstSignPassportSnap : PassportSnap :=
  { last_name := "Иванов", first_name := "Иван", middle_name := "", series := "12",
    number := "34", issued_by := "МВД", issue_code := "770", issue_date := "2020-01-01",
    registration_address := "Москва", photo_url := "", phone := "+7",
    email := "a@b", name := "Иванов Иван", address := "" }

/-- Never-signed contract awaiting its first confirmation, OTP issued. -/
def firstSignContract : Contract :=
  { tariff_snapshot := some firstSignSnap
    passport_snapshot := some firstSignPassportSnap
    device_snapshot := some []
    otp_code := some "1234", otp_sent_at := some 10, signed_at := none
    pep_agreed_at := none, payment_confirmed_at := none
    contract_url := some "https://s/contracts/c1/ИВ-250115-01.pdf"
    contract_number := some "ИВ-250115-01"
    signature_hash := none, signature_hmac := none, signed_ip := none
    signed_user_agent := none }

def firstSignClient : Client :=
  { user := { phone := "+7", email := some "a@b", name := some "Иванов Иван", address := none }
    status := ManagerClientStatus.awaiting_contract
    passport := none, devices := none, tariff := none
    contract := some firstSignContract
    invoices := [] }

def firstSignCtx : ConfirmCtx :=
  { client_id := "c1", now := 100, today := 20000, ip := some "1.2.3.4",
    user_agent := some "ua", doc_hash := fun _ => "H", doc_hmac := fun _ => "M",
    invoice_id := "inv-1" }

/-- C1 evaluated at its failing input: confirming a never-signed contract
whose snapshot owes `total_extra_fee = 2000 > 0` computes exactly that
amount (`billing_calc`), yet the invoice gate
`if device_added and amount_to_bill > 0` sees `device_added = False`
(always the case on a first signature), so no invoice is created and the
client status transitions to `PROCESSED` instead of `AWAITING_PAYMENT` —
the code drops the first-signature bill the claim (and spec §4.4/§8)
require. -/
theorem confirm_first_signature_unbilled :
    (billing_calc false (some firstSignSnap)).amount_to_bill = 2000 ∧
    (confirm_contract firstSignCtx "1234" firstSignClient).map Client.invoices = .ok [] ∧
    (confirm_contract firstSignCtx "1234" firstSignClient).map Client.status =
      .ok ManagerClientStatus.processed := by
  refine ⟨?_, ?_, ?_⟩
  · simp [billing_calc, firstSignSnap]
  · simp [confirm_contract, firstSignClient, firstSignContract, firstSignSnap,
      billing_calc, pyStrip, Except.map]
  · simp [confirm_contract, firstSignClient, firstSignContract, firstSignSnap,
      billing_calc, pyStrip, Except.map]

/-! ## C5: bookkeeping flags and the fingerprint -/

/-- Overwrite the three derived bookkeeping flags of a tariff snapshot. -/
def setFlags (ts : TariffSnap) (da : Option Bool) (n : Option Int)
    (w : Option Bool) : TariffSnap :=
  { ts with device_added := da, device_added_count := n, was_signed_before_regen := w }

/-- C5 (amended): the canonical fingerprint does NOT include the derived
bookkeeping flags — `_canonical_tariff` projects the tariff snapshot onto
seven fixed keys that omit `device_added`, `device_added_count` and
`was_signed_before_regen`, so any two snapshot sets identical except in
those flags produce the *same* fingerprint. -/
theorem flags_not_in_fingerprint (p : Option PassportSnap)
    (d : Option (List DeviceSnap)) (ts : TariffSnap)
    (da₁ da₂ : Option Bool) (n₁ n₂ : Option Int) (w₁ w₂ : Option Bool) :
    _contract_signature p d (some (setFlags ts da₁ n₁ w₁)) =
    _contract_signature p d (some (setFlags ts da₂ n₂ w₂)) := by
  simp [_contract_signature, _canonical_tariff, setFlags]

/-- C5 counterexample: two concrete snapshot sets that differ exactly in
the three injected flags (cleared vs. set) have equal fingerprints,
refuting "the resulting fingerprints differ". -/
theorem flags_fingerprint_cx :
    _contract_signature (some firstSignPassportSnap) (some []) (some firstSignSnap) =
    _contract_signature (some firstSignPassportSnap) (some [])
      (some (setFlags firstSignSnap (some true) (some 3) (some true))) ∧
    setFlags firstSignSnap (some true) (some 3) (some true) ≠ firstSignSnap := by
  constructor
  · simp [_contract_signature, _canonical_tariff, setFlags]
  · simp [firstSignSnap, setFlags]

/-! ## C8: OTP mismatch rejects and mutates nothing -/

/-- C8: whenever the whitespace-trimmed provided OTP differs from the
whitespace-trimmed stored one, `confirm_contract` fails with the
`InvalidCredential` (HTTP 400) error.  In the source the comparison at
router lines 1056-1067 precedes every write; the embedding mirrors that
order, so the error return carries no state change at all — no
`signed_at`, no OTP clearing, no invoice, no status transition. -/
theorem confirm_otp_mismatch (ctx : ConfirmCtx) (provided : String) (c : Client)
    (k : Contract) (hk : c.contract = some k)
    (h : pyStrip (k.otp_code.getD "") ≠ pyStrip provided) :
    confirm_contract ctx provided c = .error ConfirmError.invalidOtp := by
  simp [confirm_contract, hk, h]

theorem confirm_otp_mismatch_witness :
    confirm_contract firstSignCtx "9999" firstSignClient =
      .error ConfirmError.invalidOtp :=
  confirm_otp_mismatch firstSignCtx "9999" firstSignClient firstSignContract rfl
    (by decide)

/-! ## C9: blank OTP passes after a successful confirm cleared the code -/

/-- The post-confirm contract used for concrete checks: OTP cleared by a
previous successful confirmation, `signed_at` stamped. -/
def clearedClient : Client :=
  { firstSignClient with
    contract := some { firstSignContract with otp_code := none, signed_at := some 100 } }

/-- C9: once `otp_code` is cleared to null, a confirm with an empty or
whitespace-only `otp_code` trims to the empty string on both sides, passes
the comparison, and re-runs the signing and billing path (stamping
`signed_at` again and ending in `PROCESSED` or `AWAITING_PAYMENT`); only a
non-empty (after trimming) stale OTP is rejected. -/
theorem confirm_blank_otp_after_clear (ctx : ConfirmCtx) (c : Client) (k : Contract)
    (hk : c.contract = some k) (hcode : k.otp_code = none) :
    (∀ provided, pyStrip provided = "" →
      ∃ c', confirm_contract ctx provided c = .ok c' ∧
        ∃ k', c'.contract = some k' ∧ k'.signed_at = some ctx.now ∧
          k'.otp_code = none ∧
          (c'.status = ManagerClientStatus.processed ∨
            c'.status = ManagerClientStatus.awaiting_payment)) ∧
    (∀ provided, pyStrip provided ≠ "" →
      confirm_contract ctx provided c = .error ConfirmError.invalidOtp) := by
  constructor
  · intro provided hp
    simp only [confirm_contract, hk, hcode, hp, Option.getD]
    have hempty : pyStrip "" = "" := rfl
    rw [hempty]
    simp only [ne_eq, not_true_eq_false, if_false, reduceIte]
    by_cases hgate : (billing_calc (decide (k.signed_at ≠ none))
        (k.tariff_snapshot)).device_added = true ∧
        0 < (billing_calc (decide (k.signed_at ≠ none)) (k.tariff_snapshot)).amount_to_bill
    · rw [if_pos hgate]
      exact ⟨_, rfl, _, rfl, rfl, rfl, Or.inr rfl⟩
    · rw [if_neg hgate]
      exact ⟨_, rfl, _, rfl, rfl, rfl, Or.inl rfl⟩
  · intro provided hp
    simp only [confirm_contract, hk, hcode, Option.getD]
    have hempty : pyStrip "" = "" := rfl
    rw [hempty, if_pos (fun hh => hp hh.symm)]

theorem confirm_blank_otp_after_clear_witness :
    (∃ c', confirm_contract firstSignCtx " " clearedClient = .ok c' ∧
      ∃ k', c'.contract = some k' ∧ k'.signed_at = some firstSignCtx.now ∧
        k'.otp_code = none ∧
        (c'.status = ManagerClientStatus.processed ∨
          c'.status = ManagerClientStatus.awaiting_payment)) ∧
    confirm_contract firstSignCtx "9999" clearedClient =
      .error ConfirmError.invalidOtp :=
  ⟨(confirm_blank_otp_after_clear firstSignCtx clearedClient _ rfl rfl).1 " " (by decide),
   (confirm_blank_otp_after_clear firstSignCtx clearedClient _ rfl rfl).2 "9999" (by decide)⟩

/-! ## C7: OTP reuse window and fresh minting -/

lemma toDigitsCore_length_le (b f n : Nat) (l : List Char) :
    l.length ≤ (Nat.toDigitsCore b f n l).length := by
  induction f generalizing n l with
  | zero => simp [Nat.toDigitsCore]
  | succ f ih =>
    simp only [Nat.toDigitsCore]
    split
    · simp
    · exact le_trans (by simp) (ih _ _)

lemma toDigits_ne_nil (b n : Nat) : Nat.toDigits b n ≠ [] := by
  unfold Nat.toDigits
  simp only [Nat.toDigitsCore]
  split
  · simp
  · intro h
    have hlen := toDigitsCore_length_le b n (n / b) [Nat.digitChar (n % b)]
    rw [h] at hlen
    simp at hlen

lemma mintOtp_ne_empty (draw : Nat) : mintOtp draw ≠ "" := by
  show String.mk (Nat.toDigits 10 (1000 + draw)) ≠ ""
  intro h
  have hdata := congrArg String.data h
  exact toDigits_ne_nil 10 (1000 + draw) hdata

lemma otpToSend_ne_empty (k : Contract) (now : ℚ) (draw : Nat) :
    otpToSend k now draw ≠ "" := by
  unfold otpToSend
  rcases hko : k.otp_code with _ | cd <;> rcases hks : k.otp_sent_at with _ | sent <;>
    simp [mintOtp_ne_empty draw]
  by_cases hcd : cd = ""
  · simp [hcd, mintOtp_ne_empty draw]
  · by_cases h60 : now - sent < 60 <;> simp [hcd, h60, mintOtp_ne_empty draw]

lemma otpToSend_fresh (k : Contract) (code : String) (now₁ now₂ : ℚ) (draw : Nat)
    (hne : code ≠ "") (h60 : now₂ - now₁ < 60) :
    otpToSend { k with otp_code := some code, otp_sent_at := some now₁ } now₂ draw = code := by
  simp [otpToSend, hne, h60]

/-- C7: `request_contract_otp` (a) reuses the stored OTP when one is
present and was issued less than 60 seconds before the call, (b)
otherwise mints `secrets.randbelow(9000) + 1000` — with a uniform oracle
draw on `[0, 9000)` this is uniform on `[1000, 9999]` — and stamps
`otp_sent_at := now`, and (c) consequently two calls within 60 seconds of
each other return the identical code. -/
theorem request_otp_spec :
    (∀ (c : Client) (k : Contract) (code : String) (sent now : ℚ) (draw : Nat),
      c.contract = some k → k.otp_code = some code → code ≠ "" →
      k.otp_sent_at = some sent → now - sent < 60 →
      request_contract_otp now draw c = .ok (code, stampOtp c k code now)) ∧
    (∀ (c : Client) (k : Contract) (now : ℚ) (draw : Nat),
      c.contract = some k →
      (k.otp_code = none ∨ k.otp_code = some "" ∨ k.otp_sent_at = none ∨
        (∀ sent, k.otp_sent_at = some sent → 60 ≤ now - sent)) →
      request_contract_otp now draw c =
        .ok (mintOtp draw, stampOtp c k (mintOtp draw) now) ∧
      (draw < 9000 →
        mintOtp draw = toString (1000 + draw) ∧ 1000 ≤ 1000 + draw ∧ 1000 + draw ≤ 9999)) ∧
    (∀ (c c₁ : Client) (code : String) (now₁ now₂ : ℚ) (draw₁ draw₂ : Nat),
      request_contract_otp now₁ draw₁ c = .ok (code, c₁) → now₂ - now₁ < 60 →
      ∃ c₂, request_contract_otp now₂ draw₂ c₁ = .ok (code, c₂)) := by
  refine ⟨?_, ?_, ?_⟩
  · intro c k code sent now draw hk hcode hne hsent h60
    simp [request_contract_otp, otpToSend, stampOtp, hk, hcode, hsent, hne, h60]
  · intro c k now draw hk hstale
    refine ⟨?_, fun hd => ⟨rfl, by omega, by omega⟩⟩
    simp only [request_contract_otp, hk, Except.ok.injEq, Prod.mk.injEq]
    suffices h : otpToSend k now draw = mintOtp draw by
      exact ⟨h, by rw [h]⟩
    unfold otpToSend
    rcases hko : k.otp_code with _ | cd
    · rfl
    · rcases hks : k.otp_sent_at with _ | sent
      · rfl
      · by_cases hcd : cd = ""
        · simp [hcd]
        · have hge : 60 ≤ now - sent := by
            rcases hstale with h | h | h | h
            · rw [hko] at h; exact absurd h (by simp)
            · rw [hko] at h
              exact absurd h (by simpa using hcd)
            · rw [hks] at h; exact absurd h (by simp)
            · exact h sent hks
          simp [hcd, not_lt.mpr hge]
  · intro c c₁ code now₁ now₂ draw₁ draw₂ h1 h60
    rcases hc : c.contract with _ | k
    · simp only [request_contract_otp, hc] at h1
      exact absurd h1 (by simp)
    · simp only [request_contract_otp, hc, Except.ok.injEq, Prod.mk.injEq] at h1
      obtain ⟨hcode, hc₁⟩ := h1
      have hne : otpToSend k now₁ draw₁ ≠ "" := otpToSend_ne_empty k now₁ draw₁
      subst hcode
      subst hc₁
      simp [request_contract_otp, stampOtp, otpToSend_fresh _ _ _ _ _ hne h60]

theorem request_otp_spec_witness :
    request_contract_otp 50 7 firstSignClient =
      .ok ("1234", stampOtp firstSignClient firstSignContract "1234" 50) ∧
    request_contract_otp 200 7 firstSignClient =
      .ok (mintOtp 7, stampOtp firstSignClient firstSignContract (mintOtp 7) 200) ∧
    ∃ c₂, request_contract_otp 80 9
      (stampOtp firstSignClient firstSignContract "1234" 50) = .ok ("1234", c₂) := by
  have hstale : firstSignContract.otp_code = none ∨ firstSignContract.otp_code = some "" ∨
      firstSignContract.otp_sent_at = none ∨
      (∀ sent : ℚ, firstSignContract.otp_sent_at = some sent → 60 ≤ (200 : ℚ) - sent) := by
    refine Or.inr (Or.inr (Or.inr ?_))
    intro sent hs
    have h10 : sent = 10 := by
      have hs' : some (10 : ℚ) = some sent := hs
      exact (Option.some.injEq _ _ ▸ hs').symm
    rw [h10]
    norm_num
  exact ⟨request_otp_spec.1 firstSignClient firstSignContract "1234" 10 50 7 rfl rfl
      (by decide) rfl (by norm_num),
    (request_otp_spec.2.1 firstSignClient firstSignContract 200 7 rfl hstale).1,
    request_otp_spec.2.2 firstSignClient _ "1234" 50 80 7 9
      (request_otp_spec.1 firstSignClient firstSignContract "1234" 10 50 7 rfl rfl
        (by decide) rfl (by norm_num))
      (by norm_num)⟩

/-! ## C6: contract number format -/

/-- The alphabetic characters the prefix is drawn from: the stripped
last-name feed (display-name fallback) filtered to `[A-Za-zА-Яа-яЁё]`. -/
def mintLetters (pln un : String) : List Char :=
  (pyStrip (if pln = "" then un else pln)).toList.filter isAlphaLatinCyr

/-- The claim's description of the prefix: the first two alphabetic
characters of the feed, uppercased, default `"XX"` when none resolve. -/
def claimInitials (pln un : String) : String :=
  if (mintLetters pln un).isEmpty then "XX"
  else String.mk (((mintLetters pln un).take 2).map pyUpper)

lemma mint_two_eq_claimInitials (pln un : String)
    (h : (mintLetters pln un).length = 0 ∨ 2 ≤ (mintLetters pln un).length) :
    (if String.mk (((mintLetters pln un).map pyUpper).take 2) = "" then "XX"
     else String.mk (((mintLetters pln un).map pyUpper).take 2)) = claimInitials pln un := by
  rcases h with h | h
  · rw [List.length_eq_zero] at h
    simp [claimInitials, h]
  · have hne : mintLetters pln un ≠ [] := by
      intro hnil
      rw [hnil] at h
      simp at h
    have htake : ((mintLetters pln un).map pyUpper).take 2 =
        ((mintLetters pln un).take 2).map pyUpper := (List.map_take _ _ _).symm
    have hlen : (((mintLetters pln un).map pyUpper).take 2).length = 2 := by
      simp [List.length_take]
      omega
    have hmkne : String.mk (((mintLetters pln un).map pyUpper).take 2) ≠ "" := by
      intro hmk
      have := congrArg String.data hmk
      simp only [String.data] at this
      rw [this] at hlen
      simp at hlen
    rw [if_neg hmkne, htake, claimInitials, if_neg (by simpa using hne)]

lemma claimInitials_length (pln un : String)
    (h : (mintLetters pln un).length = 0 ∨ 2 ≤ (mintLetters pln un).length) :
    (claimInitials pln un).length = 2 := by
  rcases h with h | h
  · rw [List.length_eq_zero] at h
    simp [claimInitials, h]
    rfl
  · have hne : ¬(mintLetters pln un).isEmpty := by
      rw [List.isEmpty_iff]
      intro hnil
      rw [hnil] at h
      simp at h
    rw [claimInitials, if_neg (by simpa using hne)]
    show (((mintLetters pln un).take 2).map pyUpper).length = 2
    simp [List.length_take]
    omega

/-- C6: a freshly minted contract number has the form
`<2-letter-prefix>-<YYMMDD>-<NN>`: the prefix is the first two alphabetic
(Latin or Cyrillic) characters of the passport last name (display-name
fallback), uppercased, defaulting to `"XX"` when none resolve (stated for
feeds yielding zero or at least two such characters); the date part is the
UTC date `yymmddOf y m d`; and the two-digit sequence is `prev + 1` when
the client's existing number carries today's date (stated for stored
sequences in `[1, 98]`, which is every value the minting itself can have
produced short of the 99th same-day regeneration), and `01` otherwise. -/
theorem mint_contract_number_spec (pln un : String) (prev : Option String) (y m d : Nat)
    (hletters : (mintLetters pln un).length = 0 ∨ 2 ≤ (mintLetters pln un).length) :
    (claimInitials pln un).length = 2 ∧
    (prev = none →
      mintContractNumber pln un prev y m d =
        claimInitials pln un ++ "-" ++ yymmddOf y m d ++ "-" ++ "01") ∧
    (∀ pn, prev = some pn → matchContractNumber pn = none →
      mintContractNumber pln un prev y m d =
        claimInitials pln un ++ "-" ++ yymmddOf y m d ++ "-" ++ "01") ∧
    (∀ pn ds ps, prev = some pn → matchContractNumber pn = some (ds, ps) →
      ds ≠ yymmddOf y m d →
      mintContractNumber pln un prev y m d =
        claimInitials pln un ++ "-" ++ yymmddOf y m d ++ "-" ++ "01") ∧
    (∀ pn ds ps, prev = some pn → matchContractNumber pn = some (ds, ps) →
      ds = yymmddOf y m d → 1 ≤ ps → ps ≤ 98 →
      mintContractNumber pln un prev y m d =
        claimInitials pln un ++ "-" ++ yymmddOf y m d ++ "-" ++ pad2 (ps + 1) ∧
      (pad2 (ps + 1)).length = 2) := by
  have htwo := mint_two_eq_claimInitials pln un hletters
  refine ⟨claimInitials_length pln un hletters, ?_, ?_, ?_, ?_⟩
  · rintro rfl
    simp only [mintContractNumber, mintLetters] at htwo ⊢
    rw [htwo]
    rfl
  · rintro pn rfl hm
    simp only [mintContractNumber, mintLetters, hm] at htwo ⊢
    rw [htwo]
    rfl
  · rintro pn ds ps rfl hm hds
    simp only [mintContractNumber, mintLetters, hm, hds, if_false, reduceIte] at htwo ⊢
    rw [htwo]
    rfl
  · rintro pn ds ps rfl hm hds h1 h98
    subst hds
    have hmax : max 1 ps = ps := by omega
    constructor
    · simp only [mintContractNumber, mintLetters, hm, if_pos rfl, hmax] at htwo ⊢
      rw [htwo]
      simp
    · have hpad : ∀ n : Nat, n < 100 → (pad2 n).length = 2 := by decide
      exact hpad (ps + 1) (by omega)

theorem mint_contract_number_spec_witness :
    mintContractNumber "Иванов" "" none 2025 1 15 = "ИВ-250115-01" ∧
    mintContractNumber "Иванов" "" (some "ИВ-250115-01") 2025 1 15 = "ИВ-250115-02" := by
  have h1 := (mint_contract_number_spec "Иванов" "" none 2025 1 15 (by decide)).2.1 rfl
  have h2 := ((mint_contract_number_spec "Иванов" "" (some "ИВ-250115-01") 2025 1 15
    (by decide)).2.2.2.2 "ИВ-250115-01" "250115" 1 rfl (by decide) (by decide)
    (by decide) (by decide)).1
  constructor
  · rw [h1]
    decide
  · rw [h2]
    decide

/-! ## C3: idempotent regeneration -/

lemma syncedTariff_spec (ct0 : ClientTariff) (dc : Int) (total : ℚ) :
    (syncedTariff ct0 dc total).device_count = dc ∧
    (syncedTariff ct0 dc total).total_extra_fee = total ∧
    (syncedTariff ct0 dc total).tariff = ct0.tariff := by
  unfold syncedTariff
  split
  · exact ⟨rfl, rfl, rfl⟩
  · rename_i hcond
    push_neg at hcond
    exact ⟨hcond.1, hcond.2, rfl⟩

lemma syncedTariff_self (ct1 : ClientTariff) (dc : Int) (total : ℚ)
    (h1 : ct1.device_count = dc) (h2 : ct1.total_extra_fee = total) :
    syncedTariff ct1 dc total = ct1 := by
  unfold syncedTariff
  rw [if_neg]
  push_neg
  exact ⟨h1, h2⟩

lemma cacheRate_synced (ct0 : ClientTariff) (dc : Int) (total : ℚ) :
    cacheRate (syncedTariff ct0 dc total) = cacheRate ct0 := by
  unfold cacheRate
  rw [(syncedTariff_spec ct0 dc total).2.2]

lemma canonical_buildTariffSnap_flags (cache : ClientTariff) (dc : Int)
    (total epd : ℚ) (cfn : String) (f₁ f₂ : Bool) (n₁ n₂ : Int) (w₁ w₂ : Bool) :
    _canonical_tariff (some (buildTariffSnap cache dc total epd cfn f₁ n₁ w₁)) =
    _canonical_tariff (some (buildTariffSnap cache dc total epd cfn f₂ n₂ w₂)) := by
  rcases htar : cache.tariff with _ | t <;>
    simp [buildTariffSnap, _canonical_tariff, htar]

lemma signature_flags_irrelevant (ps : PassportSnap) (ds : List DeviceSnap)
    (cache : ClientTariff) (dc : Int) (total epd : ℚ) (cfn : String)
    (f₁ f₂ : Bool) (n₁ n₂ : Int) (w₁ w₂ : Bool) :
    _contract_signature (some ps) (some ds)
      (some (buildTariffSnap cache dc total epd cfn f₁ n₁ w₁)) =
    _contract_signature (some ps) (some ds)
      (some (buildTariffSnap cache dc total epd cfn f₂ n₂ w₂)) := by
  simp only [_contract_signature]
  rw [canonical_buildTariffSnap_flags cache dc total epd cfn f₁ f₂ n₁ n₂ w₁ w₂]

lemma reuseResult_rendered (x : Option Contract) : (reuseResult x).rendered = false := by
  cases x <;> rfl

lemma otpPendingReuse_upsert (existing : Option Contract) (ts : TariffSnap)
    (ps : PassportSnap) (ds : List DeviceSnap) (number url : String) :
    otpPendingReuse (some (upsertContractGen existing ts ps ds number url)) = false := by
  simp [otpPendingReuse, upsertContractGen]

lemma upsertContractGen_fields (existing : Option Contract) (ts : TariffSnap)
    (ps : PassportSnap) (ds : List DeviceSnap) (number url : String) :
    (upsertContractGen existing ts ps ds number url).signed_at = none ∧
    (upsertContractGen existing ts ps ds number url).otp_sent_at = none ∧
    (upsertContractGen existing ts ps ds number url).passport_snapshot = some ps ∧
    (upsertContractGen existing ts ps ds number url).device_snapshot = some ds ∧
    (upsertContractGen existing ts ps ds number url).tariff_snapshot = some ts ∧
    (upsertContractGen existing ts ps ds number url).contract_number = some number ∧
    (upsertContractGen existing ts ps ds number url).contract_url = some url := by
  simp [upsertContractGen]

lemma candidateFlags_unsigned (c : Client) (K : Contract) (ds : List DeviceSnap)
    (hk : c.contract = some K) (hsigned : K.signed_at = none) :
    candidateFlags c ds = (false, 0, false) := by
  simp [candidateFlags, hk, hsigned, _device_addition_stats]

lemma candidateFlags_congr (c c' : Client) (ds : List DeviceSnap)
    (h : c'.contract = c.contract) : candidateFlags c' ds = candidateFlags c ds := by
  simp [candidateFlags, h]

/-- A generate call on a state whose cached tariff is consistent, whose
contract's OTP-reuse guard fails, and whose candidate fingerprint matches
the stored one, returns the stored record and leaves the state unchanged. -/
lemma generate_second_reuse (env : GenEnv) (S : Client) (p : Passport)
    (devs : List Device) (ct1 : ClientTariff) (K : Contract)
    (hp : S.passport = some p) (hd : S.devices = some devs) (ht : S.tariff = some ct1)
    (hk : S.contract = some K) (hotp : otpPendingReuse (some K) = false)
    (hdc : ct1.device_count = (devs.length : Int))
    (htot : ct1.total_extra_fee = ((devs.length : Int) : ℚ) * cacheRate ct1)
    (hsig : _contract_signature (some (buildPassportSnap p S.user))
        (some (buildDeviceSnap devs))
        (some (buildTariffSnap ct1 (devs.length : Int)
          (((devs.length : Int) : ℚ) * cacheRate ct1) (cacheRate ct1)
          (S.user.name.getD "") (candidateFlags S (buildDeviceSnap devs)).1
          (candidateFlags S (buildDeviceSnap devs)).2.1
          (candidateFlags S (buildDeviceSnap devs)).2.2)) =
      _contract_signature K.passport_snapshot K.device_snapshot K.tariff_snapshot)
    (hS : { S with tariff := some ct1 } = S) :
    generate_contract env S = .ok (reuseResult (some K), S) := by
  have hsync := syncedTariff_self ct1 (devs.length : Int)
    (((devs.length : Int) : ℚ) * cacheRate ct1) hdc htot
  simp only [generate_contract, hp, hd, ht, hk, hotp, Bool.false_eq_true, if_false]
  simp only [generateMain, hsync, hk, hsig, if_pos]
  rw [← hk, hS]

/-- C3: with prerequisites satisfied (witnessed by a successful first
call), a second `generate` with no intervening data change returns the
same `contract_number` and `contract_url`, renders nothing, bumps no
sequence number, and leaves the whole client state — contract record
included — unchanged.  (The second call may even run on a later date or
against a different storage environment: the short-circuit never consults
either.) -/
theorem generate_idempotent (env env₂ : GenEnv) (c : Client) (r₁ : GenResult)
    (c₁ : Client) (h : generate_contract env c = .ok (r₁, c₁)) :
    ∃ r₂, generate_contract env₂ c₁ = .ok (r₂, c₁) ∧
      r₂.contract_number = r₁.contract_number ∧
      r₂.contract_url = r₁.contract_url ∧
      r₂.rendered = false := by
  obtain ⟨u, st, pas, dev, tar, con, inv⟩ := c
  rcases pas with _ | p
  · simp only [generate_contract] at h
    exact absurd h (by simp)
  rcases dev with _ | devs
  · simp only [generate_contract] at h
    exact absurd h (by simp)
  rcases tar with _ | ct0
  · simp only [generate_contract] at h
    exact absurd h (by simp)
  by_cases hotp : otpPendingReuse con = true
  · have h' : reuseResult con = r₁ ∧
        Client.mk u st (some p) (some devs) (some ct0) con inv = c₁ := by
      simp only [generate_contract, hotp, if_true, Except.ok.injEq, Prod.mk.injEq] at h
      exact h
    obtain ⟨hr, hc⟩ := h'
    subst hc
    refine ⟨reuseResult con, ?_, by rw [hr], by rw [hr], reuseResult_rendered _⟩
    simp only [generate_contract, hotp, if_true]
  · replace hotp : otpPendingReuse con = false := by
      simpa using hotp
    have hmain : generateMain env (Client.mk u st (some p) (some devs) (some ct0) con inv)
        p devs ct0 = (r₁, c₁) := by
      simp only [generate_contract, hotp, Bool.false_eq_true, if_false,
        Except.ok.injEq] at h
      exact h
    clear h
    have hdcspec := syncedTariff_spec ct0 (devs.length : Int)
      (((devs.length : Int) : ℚ) * cacheRate ct0)
    have hrate := cacheRate_synced ct0 (devs.length : Int)
      (((devs.length : Int) : ℚ) * cacheRate ct0)
    rcases con with _ | k
    · -- no prior contract: full generation, then fingerprint reuse
      simp only [generateMain, renderAndSave, Prod.mk.injEq] at hmain
      obtain ⟨hr, hc⟩ := hmain
      refine ⟨reuseResult c₁.contract, ?_, ?_, ?_, ?_⟩
      · rw [← hc]
        apply generate_second_reuse env₂ _ p devs
          (syncedTariff ct0 (devs.length : Int) (((devs.length : Int) : ℚ) * cacheRate ct0))
        · rfl
        · rfl
        · rfl
        · rfl
        · exact otpPendingReuse_upsert _ _ _ _ _ _
        · exact hdcspec.1
        · rw [hrate]
          exact hdcspec.2.1
        · rw [hrate]
          exact signature_flags_irrelevant _ _ _ _ _ _ _ _ _ _ _ _ _
        · rfl
      · rw [← hc, ← hr]
        rfl
      · rw [← hc, ← hr]
        rfl
      · rw [← hc]
        exact reuseResult_rendered _
    · by_cases hsig : _contract_signature
          (some (buildPassportSnap p u)) (some (buildDeviceSnap devs))
          (some (buildTariffSnap
            (syncedTariff ct0 (devs.length : Int) (((devs.length : Int) : ℚ) * cacheRate ct0))
            (devs.length : Int) (((devs.length : Int) : ℚ) * cacheRate ct0) (cacheRate ct0)
            (u.name.getD "")
            (candidateFlags (Client.mk u st (some p) (some devs) (some ct0) (some k) inv)
              (buildDeviceSnap devs)).1
            (candidateFlags (Client.mk u st (some p) (some devs) (some ct0) (some k) inv)
              (buildDeviceSnap devs)).2.1
            (candidateFlags (Client.mk u st (some p) (some devs) (some ct0) (some k) inv)
              (buildDeviceSnap devs)).2.2)) =
          _contract_signature k.passport_snapshot k.device_snapshot k.tariff_snapshot
      · -- fingerprint matched already on the first call
        simp only [generateMain] at hmain
        rw [if_pos hsig, Prod.mk.injEq] at hmain
        obtain ⟨hr, hc⟩ := hmain
        refine ⟨reuseResult (some k), ?_, ?_, ?_, ?_⟩
        · rw [← hc]
          apply generate_second_reuse env₂ _ p devs
            (syncedTariff ct0 (devs.length : Int)
              (((devs.length : Int) : ℚ) * cacheRate ct0)) k
          · rfl
          · rfl
          · rfl
          · rfl
          · exact hotp
          · exact hdcspec.1
          · rw [hrate]
            exact hdcspec.2.1
          · rw [hrate]
            exact hsig
          · rfl
        · rw [← hr]
        · rw [← hr]
        · exact reuseResult_rendered _
      · -- fingerprint drifted: full regeneration, then fingerprint reuse
        simp only [generateMain] at hmain
        rw [if_neg hsig] at hmain
        simp only [renderAndSave, Prod.mk.injEq] at hmain
        obtain ⟨hr, hc⟩ := hmain
        refine ⟨reuseResult c₁.contract, ?_, ?_, ?_, ?_⟩
        · rw [← hc]
          apply generate_second_reuse env₂ _ p devs
            (syncedTariff ct0 (devs.length : Int)
              (((devs.length : Int) : ℚ) * cacheRate ct0))
          · rfl
          · rfl
          · rfl
          · rfl
          · exact otpPendingReuse_upsert _ _ _ _ _ _
          · exact hdcspec.1
          · rw [hrate]
            exact hdcspec.2.1
          · rw [hrate]
            exact signature_flags_irrelevant _ _ _ _ _ _ _ _ _ _ _ _ _
          · rfl
        · rw [← hc, ← hr]
          rfl
        · rw [← hc, ← hr]
          rfl
        · rw [← hc]
          exact reuseResult_rendered _

/-- Concrete single-device client used to exercise `generate_contract`. -/
def wUser : EndUser :=
  { phone := "+7", email := none, name := some "Иванов Иван", address := none }

def wPassport : Passport :=
  { last_name := "Иванов", first_name := "Иван", middle_name := none, series := "12",
    number := "34", issued_by := "МВД", issue_code := "770", issue_date := "2020-01-01",
    registration_address := "Москва", photo_url := none }

def wDevice : Device :=
  { id := "d1", device_type := "boiler", title := "Boiler", description := none,
    specs := none, extra_fee := 0, photos := [] }

def wClient : Client :=
  { user := wUser, status := ManagerClientStatus.in_verification,
    passport := some wPassport, devices := some [wDevice],
    tariff := some { tariff := none, tariff_id := none, device_count := 0,
                     total_extra_fee := 0 },
    contract := none, invoices := [] }

def wEnv : GenEnv :=
  { client_id := "c1", url_of := fun k => "https://s/" ++ k, y := 2025, m := 1, d := 15 }

/-- The response of the first `generate` call on `wClient`. -/
def wGenRes : GenResult :=
  { otp_code := "", contract_url := some "https://s/contracts/c1/ИВ-250115-01.pdf",
    contract_number := some "ИВ-250115-01", rendered := true }

/-- The client state after the first `generate` call on `wClient`. -/
def wGenState : Client :=
  { user := wUser, status := ManagerClientStatus.awaiting_contract,
    passport := some wPassport, devices := some [wDevice],
    tariff := some { tariff := none, tariff_id := none, device_count := 1,
                     total_extra_fee := 1000 },
    contract := some
      { tariff_snapshot := some
          { tariff_id := none, device_count := some 1, total_extra_fee := some 1000,
            extra_per_device := some 1000, base_fee := some 0, name := none,
            client_full_name := some "Иванов Иван", device_added := some false,
            device_added_count := some 0, was_signed_before_regen := some false }
        passport_snapshot := some
          { last_name := "Иванов", first_name := "Иван", middle_name := "",
            series := "12", number := "34", issued_by := "МВД", issue_code := "770",
            issue_date := "2020-01-01", registration_address := "Москва",
            photo_url := "", phone := "+7", email := "", name := "Иванов Иван",
            address := "" }
        device_snapshot := some
          [{ id := some "d1", device_type := some "boiler", title := some "Boiler",
             description := none, specs := some [], extra_fee := some 0, photos := [] }]
        otp_code := none, otp_sent_at := none, signed_at := none, pep_agreed_at := none
        payment_confirmed_at := none
        contract_url := some "https://s/contracts/c1/ИВ-250115-01.pdf"
        contract_number := some "ИВ-250115-01"
        signature_hash := none, signature_hmac := none, signed_ip := none
        signed_user_agent := none }
    invoices := [] }

lemma except_eq_ok_of_toOption {ε α : Type} (e : Except ε α) (v : α)
    (h : e.toOption = some v) : e = .ok v := by
  cases e with
  | error a => simp [Except.toOption] at h
  | ok a =>
    simp [Except.toOption] at h
    rw [h]

set_option maxRecDepth 8000 in
theorem generate_idempotent_witness :
    generate_contract wEnv wClient = .ok (wGenRes, wGenState) ∧
    ∃ r₂, generate_contract wEnv wGenState = .ok (r₂, wGenState) ∧
      r₂.contract_number = wGenRes.contract_number ∧
      r₂.contract_url = wGenRes.contract_url ∧
      r₂.rendered = false :=
  ⟨by with_unfolding_all rfl,
   generate_idempotent wEnv wEnv wClient wGenRes wGenState
     (by with_unfolding_all rfl)⟩
